import Mathlib

/-!
# MM0B binary format: the declarations of `mm0-c/types.c`

A shallow embedding of the constants, accessor macros and command
structures of `types.c`.  C unsigned integers are natural numbers; a value of
type `u8`, `u32`, `u64` is a natural number below `2^8`, `2^32`, `2^64`, and
that bound is a hypothesis wherever a statement depends on it.
-/

namespace MM0B

/-! ## Sort modifiers and header constants -/

def SORT_PURE : Nat := 1
def SORT_STRICT : Nat := 2
def SORT_PROVABLE : Nat := 4
def SORT_FREE : Nat := 8

/-- The constant `(u32)0x42304D4D`; the cast to `u32` is the reduction modulo `2^32`. -/
def MM0B_MAGIC : Nat := 0x42304D4D % 2 ^ 32

/-- The constant `(u8)1`. -/
def MM0B_VERSION : Nat := 1 % 2 ^ 8

def MAX_SORTS : Nat := 128

/-! ## Binder words -/

/-- The macro `(((u64)1<<56)-1)`. -/
def TYPE_DEPS_MASK : Nat := ((1 <<< 56) % 2 ^ 64) - 1

/-- The macro `((u64)1<<63)`. -/
def TYPE_BOUND_MASK : Nat := (1 <<< 63) % 2 ^ 64

/-- The macro `(((type) >> 56) & 0x7F)`. -/
def TYPE_SORT (type : Nat) : Nat := (type >>> 56) &&& 0x7F

/-- Left shift of a `u64` value, as C computes it: bits shifted past bit 63 are lost. -/
def shl64 (x n : Nat) : Nat := (x <<< n) % 2 ^ 64

/-! ## Index kinds -/

def INDEX_KIND_TERM : Nat := 0x01 % 2 ^ 8
def INDEX_KIND_AXIOM : Nat := 0x02 % 2 ^ 8
def INDEX_KIND_VAR : Nat := 0x03 % 2 ^ 8
def INDEX_KIND_SORT : Nat := 0x04 % 2 ^ 8
def INDEX_KIND_DEF : Nat := 0x05 % 2 ^ 8
def INDEX_KIND_THM : Nat := 0x06 % 2 ^ 8
def INDEX_KIND_LOCAL_DEF : Nat := 0x0D % 2 ^ 8
def INDEX_KIND_LOCAL_THM : Nat := 0x0E % 2 ^ 8

/-! ## Commands -/

/-- The macro `((opcode) & 0xC0)`. -/
def CMD_DATA (opcode : Nat) : Nat := opcode &&& 0xC0

def CMD_DATA_0 : Nat := 0x00
def CMD_DATA_8 : Nat := 0x40
def CMD_DATA_16 : Nat := 0x80
def CMD_DATA_32 : Nat := 0xC0

def CMD_MAX_SIZE : Nat := 12
def CMD_END : Nat := 0x00

def CMD_STMT_TERM : Nat := 0x05
def CMD_STMT_AXIOM : Nat := 0x02
def CMD_STMT_SORT : Nat := 0x04
def CMD_STMT_DEF : Nat := 0x05
def CMD_STMT_THM : Nat := 0x06
def CMD_STMT_LOCAL_DEF : Nat := 0x0D
def CMD_STMT_LOCAL_THM : Nat := 0x0E

/-- The macro `(((opcode) & 0xF7) == CMD_STMT_THM)`. -/
def IS_CMD_STMT_THM (opcode : Nat) : Bool := (opcode &&& 0xF7) == CMD_STMT_THM

/-! ### Proof commands -/

def CMD_PROOF_TERM : Nat := 0x10
def CMD_PROOF_TERM_SAVE : Nat := 0x11
def CMD_PROOF_REF : Nat := 0x12
def CMD_PROOF_DUMMY : Nat := 0x13
def CMD_PROOF_THM : Nat := 0x14
def CMD_PROOF_THM_SAVE : Nat := 0x15
def CMD_PROOF_HYP : Nat := 0x16
def CMD_PROOF_CONV : Nat := 0x17
def CMD_PROOF_REFL : Nat := 0x18
def CMD_PROOF_SYMM : Nat := 0x19
def CMD_PROOF_CONG : Nat := 0x1A
def CMD_PROOF_UNFOLD : Nat := 0x1B
def CMD_PROOF_CONV_CUT : Nat := 0x1C
def CMD_PROOF_CONV_REF : Nat := 0x1D

/-! ### Unify commands -/

def CMD_UNIFY_TERM : Nat := 0x30
def CMD_UNIFY_TERM_SAVE : Nat := 0x31
def CMD_UNIFY_REF : Nat := 0x32
def CMD_UNIFY_DUMMY : Nat := 0x33
def CMD_UNIFY_THM : Nat := 0x34
def CMD_UNIFY_HYP : Nat := 0x36

/-- The statement opcode constants of `types.c`, `CMD_END` included, in the order
they are defined. -/
def stmtOpcodes : List Nat :=
  [CMD_END, CMD_STMT_TERM, CMD_STMT_AXIOM, CMD_STMT_SORT, CMD_STMT_DEF, CMD_STMT_THM,
   CMD_STMT_LOCAL_DEF, CMD_STMT_LOCAL_THM]

/-- The proof opcode constants of `types.c`, in the order they are defined. -/
def proofOpcodes : List Nat :=
  [CMD_PROOF_TERM, CMD_PROOF_TERM_SAVE, CMD_PROOF_REF, CMD_PROOF_DUMMY, CMD_PROOF_THM,
   CMD_PROOF_THM_SAVE, CMD_PROOF_HYP, CMD_PROOF_CONV, CMD_PROOF_REFL, CMD_PROOF_SYMM,
   CMD_PROOF_CONG, CMD_PROOF_UNFOLD, CMD_PROOF_CONV_CUT, CMD_PROOF_CONV_REF]

/-- The unify opcode constants of `types.c`, in the order they are defined. -/
def unifyOpcodes : List Nat :=
  [CMD_UNIFY_TERM, CMD_UNIFY_TERM_SAVE, CMD_UNIFY_REF, CMD_UNIFY_DUMMY, CMD_UNIFY_THM,
   CMD_UNIFY_HYP]

/-- The statement opcode constants with `CMD_STMT_TERM`, the second name of the
value of `CMD_STMT_DEF`, left out. -/
def stmtOpcodesNoTerm : List Nat :=
  [CMD_END, CMD_STMT_AXIOM, CMD_STMT_SORT, CMD_STMT_DEF, CMD_STMT_THM,
   CMD_STMT_LOCAL_DEF, CMD_STMT_LOCAL_THM]

/-! ## Sort bytes -/

/-- The four sort modifier flags of `types.c`, in the order they are defined. -/
def sortFlags : List Nat := [SORT_PURE, SORT_STRICT, SORT_PROVABLE, SORT_FREE]

/-- The byte associated to a sort with the given modifiers: the OR of their flags. -/
def sortByte (mods : List Nat) : Nat := mods.foldl (fun b f => b ||| f) 0

/-- Whether a modifier flag is set in a sort byte: the test `(byte & FLAG) != 0`. -/
def hasSortFlag (byte flag : Nat) : Bool := (byte &&& flag) != 0

/-! ## Command structures

A structure is the alignment its attribute asks for and the list of its fields
in declaration order.  The compiler places each field at the next multiple of
the alignment of its type and rounds the size of the structure up to the
alignment of the structure; an `aligned` attribute can raise that alignment and
cannot lower it, so it leaves the padding between the fields in place.  A
flexible array member (`u8 proof[]`) takes no room. -/

/-- The macro `ALIGNED(n)`, which is `__attribute__((aligned(1)))` whatever `n`
is: the alignment, in bytes, that the attribute asks for. -/
def ALIGNED (_ : Nat) : Nat := 1

/-- The field types used by the command structures. -/
inductive CType where
  | u8 : CType
  | u16 : CType
  | u32 : CType
  | u64 : CType
  | flexArray : CType → CType
  deriving DecidableEq, Repr

/-- Size in bytes of a field of the given type. -/
def CType.size : CType → Nat
  | .u8 => 1
  | .u16 => 2
  | .u32 => 4
  | .u64 => 8
  | .flexArray _ => 0

/-- Alignment in bytes of a field of the given type: the fixed-width integer
types are aligned to their size, an array to its element. -/
def CType.align : CType → Nat
  | .u8 => 1
  | .u16 => 2
  | .u32 => 4
  | .u64 => 8
  | .flexArray t => t.align

/-- A structure: the alignment its attribute asks for, and the field names with
their types in declaration order. -/
structure CStruct where
  aligned : Nat
  fields : List (String × CType)
  deriving DecidableEq, Repr

/-- The least multiple of `a` that is at least `off`. -/
def alignUp (off a : Nat) : Nat := (off + a - 1) / a * a

/-- The offsets the compiler gives to the fields `fs`, the first free byte being
at `off`: each field starts at the next multiple of its alignment. -/
def fieldOffsets : List (String × CType) → Nat → List (String × Nat)
  | [], _ => []
  | f :: fs, off =>
    (f.1, alignUp off f.2.align) :: fieldOffsets fs (alignUp off f.2.align + f.2.size)

/-- The first byte after the last of the fields `fs`, laid out from `off` on. -/
def fieldsEnd : List (String × CType) → Nat → Nat
  | [], off => off
  | f :: fs, off => fieldsEnd fs (alignUp off f.2.align + f.2.size)

/-- Alignment of a structure: the largest alignment among its fields and the
one its attribute asks for. -/
def CStruct.alignment (s : CStruct) : Nat :=
  s.fields.foldl (fun a f => max a f.2.align) s.aligned

/-- What `sizeof` gives for a structure as declared: the end of its last field,
rounded up to the alignment of the structure. -/
def CStruct.sizeof (s : CStruct) : Nat := alignUp (fieldsEnd s.fields 0) s.alignment

/-- Offset of the field called `name` in the structure as declared. -/
def CStruct.offsetOf (s : CStruct) (name : String) : Option Nat :=
  ((fieldOffsets s.fields 0).find? fun f => f.1 == name).map fun f => f.2

/-- Size in bytes of the field called `name`, when the structure has one. -/
def CStruct.fieldSize (s : CStruct) (name : String) : Option Nat :=
  (s.fields.find? fun f => f.1 == name).map fun f => f.2.size

/-- Modelled from the spec: the number of bytes the fields of a structure take
in the file, where the format table lays them out one after the other with
no padding ("cmd(u8), next(u32), proof-command bytes inline"): the sum of the
field sizes.  It is not the size of the declared structure, which is
`CStruct.sizeof`. -/
def CStruct.packedSize (s : CStruct) : Nat := (s.fields.map fun f => f.2.size).sum

/-- The structure `cmd_stmt`: `ALIGNED(1)`, `u8 cmd; u32 next; u8 proof[];`. -/
def cmd_stmt : CStruct :=
  ⟨ALIGNED 1, [("cmd", .u8), ("next", .u32), ("proof", .flexArray .u8)]⟩

/-- The structure `cmd`: `ALIGNED(1)`, `u8 cmd;`. -/
def cmd : CStruct := ⟨ALIGNED 1, [("cmd", .u8)]⟩

/-- The structure `cmd8`: `ALIGNED(1)`, `u8 cmd; u8 data;`. -/
def cmd8 : CStruct := ⟨ALIGNED 1, [("cmd", .u8), ("data", .u8)]⟩

/-- The structure `cmd16`: `ALIGNED(1)`, `u8 cmd; u16 data;`. -/
def cmd16 : CStruct := ⟨ALIGNED 1, [("cmd", .u8), ("data", .u16)]⟩

/-- The structure `cmd32`: `ALIGNED(1)`, `u8 cmd; u32 data;`. -/
def cmd32 : CStruct := ⟨ALIGNED 1, [("cmd", .u8), ("data", .u32)]⟩

/-- The command structures of `types.c`. -/
def cmdStructs : List CStruct := [cmd_stmt, cmd, cmd8, cmd16, cmd32]

/-- Size in bytes of the longest command structure, as declared. -/
def longestCmdStruct : Nat := (cmdStructs.map CStruct.sizeof).foldl max 0

/-- The largest number of bytes the fields of a command structure take in the
file, laid out one after the other with no padding. -/
def longestPackedCmd : Nat := (cmdStructs.map CStruct.packedSize).foldl max 0

/-- Modelled from the spec: which structure a generic command with a given width
selector is laid out as ("top 2 bits selecting 0/1/2/4-byte little-endian
immediate that follows"); `types.c` declares the selectors and the structures
`cmd`, `cmd8`, `cmd16`, `cmd32` and says that the length of the data field
depends on the high bits of the command, the code pairing them is not in the
file.  A value that is none of the four selectors has no layout. -/
def cmdLayout (sel : Nat) : Option CStruct :=
  if sel = CMD_DATA_0 then some cmd
  else if sel = CMD_DATA_8 then some cmd8
  else if sel = CMD_DATA_16 then some cmd16
  else if sel = CMD_DATA_32 then some cmd32
  else none

/-- Number of immediate bytes that follow an opcode byte: the size of the `data`
field of its layout, zero when the layout has none. -/
def immWidth (opcode : Nat) : Option Nat :=
  (cmdLayout (CMD_DATA opcode)).map fun s => (s.fieldSize "data").getD 0

/-- Size in bytes of the declared structure that the generic command starting
with the given opcode byte is laid out as. -/
def cmdLength (opcode : Nat) : Option Nat :=
  (cmdLayout (CMD_DATA opcode)).map CStruct.sizeof

/-- Modelled from the spec: the number of bytes a generic command takes in the
file, the opcode byte and the immediate that follows it ("reads one opcode plus
an immediate operand", "advances the cursor exactly past the consumed bytes");
the decoder is not in `types.c`. -/
def encodedLength (opcode : Nat) : Option Nat :=
  (immWidth opcode).map fun w => 1 + w

/-- Modelled from the spec: the padding contract ("no command may begin within
12 bytes of the buffer end"), which the comment above `CMD_MAX_SIZE` states
too; the code that checks it is not in `types.c`.  A command that begins at
offset `p` of a file of `len` bytes does not appear within `CMD_MAX_SIZE` bytes
of the end of the file. -/
def paddingOk (len p : Nat) : Bool := decide (p + CMD_MAX_SIZE ≤ len)

/-- Number of bytes that follow a one-byte command at offset `p` in a file of
`len` bytes. -/
def bytesAfter (len p : Nat) : Nat := len - (p + 1)

/-! ## Byte order -/

/-- Modelled from the spec: the four bytes a `u32` field is stored as ("all
multi-byte fields little-endian"), least significant byte first; `types.c`
declares the field `u32 magic` and leaves the byte order to the host. -/
def u32_le_bytes (x : Nat) : List Nat :=
  [x &&& 0xFF, (x >>> 8) &&& 0xFF, (x >>> 16) &&& 0xFF, (x >>> 24) &&& 0xFF]

/-- Reading a `u32` back from its four stored bytes, least significant first. -/
def u32_of_le_bytes : List Nat → Option Nat
  | [b0, b1, b2, b3] => some (b0 + b1 * 2 ^ 8 + b2 * 2 ^ 16 + b3 * 2 ^ 24)
  | _ => none

/-! ## Binder words: the three fields -/

theorem TYPE_DEPS_MASK_eq : TYPE_DEPS_MASK = 2 ^ 56 - 1 := by decide

theorem TYPE_BOUND_MASK_eq : TYPE_BOUND_MASK = 2 ^ 63 := by decide

theorem testBit_u64_high {w i : Nat} (hw : w < 2 ^ 64) (hi : 64 ≤ i) :
    w.testBit i = false :=
  Nat.testBit_lt_two_pow (Nat.lt_of_lt_of_le hw (Nat.pow_le_pow_right (by decide) hi))

/-- The bound-flag field keeps bit 63 of the word and nothing else. -/
theorem testBit_bound (w i : Nat) :
    (w &&& TYPE_BOUND_MASK).testBit i = (w.testBit i && decide (i = 63)) := by
  rw [TYPE_BOUND_MASK_eq, Nat.testBit_and, Nat.testBit_two_pow]
  congr 1
  simp [eq_comm]

/-- The dependency field keeps bits 0 to 55 of the word and nothing else. -/
theorem testBit_deps (w i : Nat) :
    (w &&& TYPE_DEPS_MASK).testBit i = (w.testBit i && decide (i < 56)) := by
  rw [TYPE_DEPS_MASK_eq, Nat.testBit_and, Nat.testBit_two_pow_sub_one]

/-- Bit `i` of the sort id is bit `56 + i` of the word, for `i < 7`. -/
theorem testBit_sort (w i : Nat) :
    (TYPE_SORT w).testBit i = (w.testBit (56 + i) && decide (i < 7)) := by
  have h : (0x7F : Nat) = 2 ^ 7 - 1 := by decide
  rw [TYPE_SORT, h, Nat.testBit_and, Nat.testBit_shiftRight, Nat.testBit_two_pow_sub_one]

/-- The sort id shifted back into place keeps bits 56 to 62 of the word and nothing else. -/
theorem testBit_sort_shl (w i : Nat) :
    (shl64 (TYPE_SORT w) 56).testBit i = (w.testBit i && decide (56 ≤ i ∧ i < 63)) := by
  rw [shl64, Nat.testBit_mod_two_pow, Nat.testBit_shiftLeft, testBit_sort]
  by_cases h1 : 56 ≤ i
  · have e : 56 + (i - 56) = i := by omega
    rw [e]
    by_cases h2 : i < 63
    · have h3 : i - 56 < 7 := by omega
      have h4 : i < 64 := by omega
      simp [h1, h2, h3, h4]
    · have h3 : ¬ (i - 56 < 7) := by omega
      simp [h1, h2, h3]
  · simp [h1]

theorem TYPE_SORT_eq_div_mod (w : Nat) : TYPE_SORT w = w / 2 ^ 56 % 128 := by
  have h : (0x7F : Nat) = 2 ^ 7 - 1 := by decide
  rw [TYPE_SORT, h, Nat.and_pow_two_sub_one_eq_mod, Nat.shiftRight_eq_div_pow]

theorem TYPE_SORT_lt (w : Nat) : TYPE_SORT w < 128 := by
  rw [TYPE_SORT_eq_div_mod]
  exact Nat.mod_lt _ (by decide)

/-- Shifting a sort id left by 56 never leaves the 64-bit range. -/
theorem shl64_TYPE_SORT (w : Nat) : shl64 (TYPE_SORT w) 56 = TYPE_SORT w <<< 56 := by
  have h := TYPE_SORT_lt w
  rw [shl64, Nat.shiftLeft_eq]
  apply Nat.mod_eq_of_lt
  omega

theorem and_two_pow_ne_zero_iff (x n : Nat) : x &&& 2 ^ n ≠ 0 ↔ x.testBit n = true := by
  constructor
  · intro h
    obtain ⟨i, hi⟩ := Nat.ne_zero_implies_bit_true h
    rw [Nat.testBit_and, Nat.testBit_two_pow] at hi
    simp only [Bool.and_eq_true, decide_eq_true_eq] at hi
    rw [hi.2]
    exact hi.1
  · intro h h0
    have hb : (x &&& 2 ^ n).testBit n = true := by
      rw [Nat.testBit_and, Nat.testBit_two_pow, h]
      simp
    rw [h0] at hb
    simp at hb

/-- C1: the bound flag (bit 63), the sort id (bits 56 to 62) and the dependency
mask (bits 0 to 55) read from a 64-bit binder word partition it: or-ing the
three fields back in place gives the word, each field has bits only in its own
range, and the fields are pairwise disjoint. -/
theorem binder_fields_partition (w : Nat) (hw : w < 2 ^ 64) :
    ((w &&& TYPE_BOUND_MASK) ||| (TYPE_SORT w <<< 56) ||| (w &&& TYPE_DEPS_MASK) = w)
    ∧ shl64 (TYPE_SORT w) 56 = TYPE_SORT w <<< 56
    ∧ (∀ i, (w &&& TYPE_BOUND_MASK).testBit i = (w.testBit i && decide (i = 63)))
    ∧ (∀ i, (TYPE_SORT w <<< 56).testBit i = (w.testBit i && decide (56 ≤ i ∧ i < 63)))
    ∧ (∀ i, (w &&& TYPE_DEPS_MASK).testBit i = (w.testBit i && decide (i < 56)))
    ∧ (w &&& TYPE_BOUND_MASK) &&& (TYPE_SORT w <<< 56) = 0
    ∧ (w &&& TYPE_BOUND_MASK) &&& (w &&& TYPE_DEPS_MASK) = 0
    ∧ (TYPE_SORT w <<< 56) &&& (w &&& TYPE_DEPS_MASK) = 0
    ∧ TYPE_BOUND_MASK &&& (0x7F <<< 56) = 0
    ∧ TYPE_BOUND_MASK &&& TYPE_DEPS_MASK = 0
    ∧ (0x7F <<< 56) &&& TYPE_DEPS_MASK = 0
    ∧ TYPE_BOUND_MASK ||| (0x7F <<< 56) ||| TYPE_DEPS_MASK = 2 ^ 64 - 1 := by
  rw [← shl64_TYPE_SORT]
  refine ⟨?_, rfl, testBit_bound w, testBit_sort_shl w, testBit_deps w, ?_, ?_, ?_,
    by decide, by decide, by decide, by decide⟩
  · apply Nat.eq_of_testBit_eq
    intro i
    rw [Nat.testBit_or, Nat.testBit_or, testBit_bound, testBit_sort_shl, testBit_deps]
    by_cases hi : 64 ≤ i
    · simp [testBit_u64_high hw hi]
    · cases w.testBit i
      · simp
      · simp; omega
  · apply Nat.eq_of_testBit_eq
    intro i
    rw [Nat.testBit_and, testBit_bound, testBit_sort_shl]
    cases w.testBit i
    · simp
    · simp; omega
  · apply Nat.eq_of_testBit_eq
    intro i
    rw [Nat.testBit_and, testBit_bound, testBit_deps]
    cases w.testBit i
    · simp
    · simp; omega
  · apply Nat.eq_of_testBit_eq
    intro i
    rw [Nat.testBit_and, testBit_sort_shl, testBit_deps]
    cases w.testBit i
    · simp
    · simp; omega

/-- The partition of C1 at the word `0xFF00000000000001`. -/
theorem binder_fields_partition_witness :
    0xFF00000000000001 < 2 ^ 64
    ∧ (0xFF00000000000001 &&& TYPE_BOUND_MASK) ||| (TYPE_SORT 0xFF00000000000001 <<< 56)
        ||| (0xFF00000000000001 &&& TYPE_DEPS_MASK) = 0xFF00000000000001 :=
  ⟨by decide, (binder_fields_partition 0xFF00000000000001 (by decide)).1⟩

/-- C2: packing a bound flag `b`, a sort id `s < 128` and a dependency mask
`d < 2^56` into the word `b * 2^63 + s * 2^56 + d` and reading the fields back
returns `s`, `d`, and a non-zero bound field exactly when `b = 1`. -/
theorem binder_pack_unpack (b s d : Nat) (hb : b = 0 ∨ b = 1) (hs : s < 128)
    (hd : d < 2 ^ 56) :
    b * 2 ^ 63 + s * 2 ^ 56 + d < 2 ^ 64
    ∧ TYPE_SORT (b * 2 ^ 63 + s * 2 ^ 56 + d) = s
    ∧ (b * 2 ^ 63 + s * 2 ^ 56 + d) &&& TYPE_DEPS_MASK = d
    ∧ ((b * 2 ^ 63 + s * 2 ^ 56 + d) &&& TYPE_BOUND_MASK ≠ 0 ↔ b = 1) := by
  refine ⟨?_, ?_, ?_, ?_⟩
  · rcases hb with rfl | rfl <;> omega
  · rw [TYPE_SORT_eq_div_mod]
    rcases hb with rfl | rfl <;> omega
  · rw [TYPE_DEPS_MASK_eq, Nat.and_pow_two_sub_one_eq_mod]
    rcases hb with rfl | rfl <;> omega
  · rw [TYPE_BOUND_MASK_eq, and_two_pow_ne_zero_iff, Nat.testBit_to_div_mod,
      decide_eq_true_eq]
    rcases hb with rfl | rfl <;> omega

/-- The round trip of C2 at `b = 1`, `s = 5`, `d = 3`. -/
theorem binder_pack_unpack_witness :
    (1 = 0 ∨ 1 = 1) ∧ 5 < 128 ∧ 3 < 2 ^ 56
    ∧ TYPE_SORT (1 * 2 ^ 63 + 5 * 2 ^ 56 + 3) = 5
    ∧ (1 * 2 ^ 63 + 5 * 2 ^ 56 + 3) &&& TYPE_DEPS_MASK = 3
    ∧ ((1 * 2 ^ 63 + 5 * 2 ^ 56 + 3) &&& TYPE_BOUND_MASK ≠ 0 ↔ 1 = 1) :=
  ⟨Or.inr rfl, by decide, by decide,
    (binder_pack_unpack 1 5 3 (Or.inr rfl) (by decide) (by decide)).2⟩

/-! ## Command bytes -/

set_option maxRecDepth 100000

theorem cmd_data_cases : ∀ op, op < 256 →
    (op >>> 6 = 0 ∧ CMD_DATA op = CMD_DATA_0 ∧ immWidth op = some 0
      ∧ encodedLength op = some (1 + 0) ∧ cmdLength op = some 1)
    ∨ (op >>> 6 = 1 ∧ CMD_DATA op = CMD_DATA_8 ∧ immWidth op = some 1
      ∧ encodedLength op = some (1 + 1) ∧ cmdLength op = some 2)
    ∨ (op >>> 6 = 2 ∧ CMD_DATA op = CMD_DATA_16 ∧ immWidth op = some 2
      ∧ encodedLength op = some (1 + 2) ∧ cmdLength op = some 4)
    ∨ (op >>> 6 = 3 ∧ CMD_DATA op = CMD_DATA_32 ∧ immWidth op = some 4
      ∧ encodedLength op = some (1 + 4) ∧ cmdLength op = some 8) := by
  decide

theorem cmd_data_of_byte (op : Nat) (hop : op < 256) :
    op >>> 6 < 4
    ∧ (op >>> 6 = 0 →
        CMD_DATA op = CMD_DATA_0 ∧ immWidth op = some 0
        ∧ encodedLength op = some (1 + 0) ∧ cmdLength op = some 1)
    ∧ (op >>> 6 = 1 →
        CMD_DATA op = CMD_DATA_8 ∧ immWidth op = some 1
        ∧ encodedLength op = some (1 + 1) ∧ cmdLength op = some 2)
    ∧ (op >>> 6 = 2 →
        CMD_DATA op = CMD_DATA_16 ∧ immWidth op = some 2
        ∧ encodedLength op = some (1 + 2) ∧ cmdLength op = some 4)
    ∧ (op >>> 6 = 3 →
        CMD_DATA op = CMD_DATA_32 ∧ immWidth op = some 4
        ∧ encodedLength op = some (1 + 4) ∧ cmdLength op = some 8) := by
  rcases cmd_data_cases op hop with ⟨k, h⟩ | ⟨k, h⟩ | ⟨k, h⟩ | ⟨k, h⟩
  · exact ⟨by omega, fun _ => h, fun e => by omega, fun e => by omega, fun e => by omega⟩
  · exact ⟨by omega, fun e => by omega, fun _ => h, fun e => by omega, fun e => by omega⟩
  · exact ⟨by omega, fun e => by omega, fun e => by omega, fun _ => h, fun e => by omega⟩
  · exact ⟨by omega, fun e => by omega, fun e => by omega, fun e => by omega, fun _ => h⟩

theorem cmd_byte_join : ∀ o, o < 64 →
    ∀ d, d ∈ [CMD_DATA_0, CMD_DATA_8, CMD_DATA_16, CMD_DATA_32] →
      (o ||| d) < 256 ∧ CMD_DATA (o ||| d) = d ∧ (o ||| d) &&& 0x3F = o := by
  decide

theorem cmd_byte_split : ∀ c, c < 256 → c = CMD_DATA c ||| (c &&& 0x3F) := by
  decide

theorem is_cmd_stmt_thm_of_byte : ∀ op, op < 256 →
    (IS_CMD_STMT_THM op = true ↔ op = CMD_STMT_THM ∨ op = CMD_STMT_LOCAL_THM) := by
  decide

theorem cmd_lengths_bounded : ∀ op, op < 256 →
    ∃ w n, immWidth op = some w ∧ encodedLength op = some (1 + w) ∧ cmdLength op = some n
      ∧ 1 + w ≤ 5 ∧ n ≤ 8 := by
  intro op h
  rcases cmd_data_cases op h with ⟨_, _, hw, he, hl⟩ | ⟨_, _, hw, he, hl⟩
    | ⟨_, _, hw, he, hl⟩ | ⟨_, _, hw, he, hl⟩
  · exact ⟨0, 1, hw, he, hl, by decide, by decide⟩
  · exact ⟨1, 2, hw, he, hl, by decide, by decide⟩
  · exact ⟨2, 4, hw, he, hl, by decide, by decide⟩
  · exact ⟨4, 8, hw, he, hl, by decide, by decide⟩

/-- C3: for every command byte `op`, `CMD_DATA op` is one of the four width
selectors, which are pairwise distinct, and the top two bits `op >> 6` decide
which: 0, 1, 2, 3 give `CMD_DATA_0`, `CMD_DATA_8`, `CMD_DATA_16`, `CMD_DATA_32`
with 0, 1, 2, 4 immediate bytes, so that the opcode byte fixes the length of
the command: 1 + 0, 1 + 1, 1 + 2 or 1 + 4 bytes in the file, and 1, 2, 4 or 8
bytes for the structure `cmd`, `cmd8`, `cmd16` or `cmd32` as declared. -/
theorem cmd_data_selects_width (op : Nat) (hop : op < 256) :
    [CMD_DATA_0, CMD_DATA_8, CMD_DATA_16, CMD_DATA_32].Nodup
    ∧ CMD_DATA op ∈ [CMD_DATA_0, CMD_DATA_8, CMD_DATA_16, CMD_DATA_32]
    ∧ op >>> 6 < 4
    ∧ (op >>> 6 = 0 →
        CMD_DATA op = CMD_DATA_0 ∧ immWidth op = some 0
        ∧ encodedLength op = some (1 + 0) ∧ cmdLength op = some 1)
    ∧ (op >>> 6 = 1 →
        CMD_DATA op = CMD_DATA_8 ∧ immWidth op = some 1
        ∧ encodedLength op = some (1 + 1) ∧ cmdLength op = some 2)
    ∧ (op >>> 6 = 2 →
        CMD_DATA op = CMD_DATA_16 ∧ immWidth op = some 2
        ∧ encodedLength op = some (1 + 2) ∧ cmdLength op = some 4)
    ∧ (op >>> 6 = 3 →
        CMD_DATA op = CMD_DATA_32 ∧ immWidth op = some 4
        ∧ encodedLength op = some (1 + 4) ∧ cmdLength op = some 8) := by
  have h := cmd_data_of_byte op hop
  refine ⟨by decide, ?_, h⟩
  obtain ⟨h4, h0, h1, h2, h3⟩ := h
  have hk : op >>> 6 = 0 ∨ op >>> 6 = 1 ∨ op >>> 6 = 2 ∨ op >>> 6 = 3 := by omega
  rcases hk with k | k | k | k
  · rw [(h0 k).1]; decide
  · rw [(h1 k).1]; decide
  · rw [(h2 k).1]; decide
  · rw [(h3 k).1]; decide

/-- C3 at the byte `0x92` (`CMD_PROOF_REF` with a 16-bit immediate). -/
theorem cmd_data_selects_width_witness :
    0x92 < 256 ∧ CMD_DATA 0x92 = CMD_DATA_16 ∧ immWidth 0x92 = some 2
    ∧ encodedLength 0x92 = some 3 ∧ cmdLength 0x92 = some 4 :=
  have h := (cmd_data_selects_width 0x92 (by decide)).2.2.2.2.2.1 (by decide)
  ⟨by decide, h.1, h.2.1, h.2.2.1, h.2.2.2⟩

/-- C4: for a 6-bit opcode `o` and a width selector `d`, the command byte `o | d`
has `CMD_DATA (o | d) = d` and low six bits `o`; and every byte `c` is
`CMD_DATA c | (c & 0x3F)`. -/
theorem cmd_byte_round_trip (o d c : Nat) (ho : o < 64)
    (hd : d = CMD_DATA_0 ∨ d = CMD_DATA_8 ∨ d = CMD_DATA_16 ∨ d = CMD_DATA_32)
    (hc : c < 256) :
    ((o ||| d) < 256 ∧ CMD_DATA (o ||| d) = d ∧ (o ||| d) &&& 0x3F = o)
    ∧ c = CMD_DATA c ||| (c &&& 0x3F) := by
  refine ⟨cmd_byte_join o ho d ?_, cmd_byte_split c hc⟩
  rcases hd with rfl | rfl | rfl | rfl <;> decide

/-- C4 at opcode `0x14`, selector `CMD_DATA_8` and byte `0x54`. -/
theorem cmd_byte_round_trip_witness :
    0x14 < 64 ∧ 0x54 < 256
    ∧ CMD_DATA (0x14 ||| CMD_DATA_8) = CMD_DATA_8 ∧ (0x14 ||| CMD_DATA_8) &&& 0x3F = 0x14
    ∧ 0x54 = CMD_DATA 0x54 ||| (0x54 &&& 0x3F) :=
  have h := cmd_byte_round_trip 0x14 CMD_DATA_8 0x54 (by decide) (Or.inr (Or.inl rfl))
    (by decide)
  ⟨by decide, by decide, h.1.2.1, h.1.2.2, h.2⟩

/-- C5: for an 8-bit opcode, `IS_CMD_STMT_THM` holds exactly for `CMD_STMT_THM`
(0x06) and `CMD_STMT_LOCAL_THM` (0x0E); it is false for End, Axiom, Sort,
Term/Def and LocalDef. -/
theorem is_cmd_stmt_thm_iff (op : Nat) (hop : op < 256) :
    (IS_CMD_STMT_THM op = true ↔ op = CMD_STMT_THM ∨ op = CMD_STMT_LOCAL_THM)
    ∧ CMD_STMT_THM = 0x06 ∧ CMD_STMT_LOCAL_THM = 0x0E
    ∧ IS_CMD_STMT_THM CMD_END = false
    ∧ IS_CMD_STMT_THM CMD_STMT_AXIOM = false
    ∧ IS_CMD_STMT_THM CMD_STMT_SORT = false
    ∧ IS_CMD_STMT_THM CMD_STMT_TERM = false
    ∧ IS_CMD_STMT_THM CMD_STMT_DEF = false
    ∧ IS_CMD_STMT_THM CMD_STMT_LOCAL_DEF = false :=
  ⟨is_cmd_stmt_thm_of_byte op hop, rfl, rfl, by decide, by decide, by decide, by decide,
    by decide, by decide⟩

/-- C5 at the opcode `0x0E`. -/
theorem is_cmd_stmt_thm_iff_witness :
    0x0E < 256 ∧ IS_CMD_STMT_THM 0x0E = true :=
  ⟨by decide, (is_cmd_stmt_thm_iff 0x0E (by decide)).1.2 (Or.inr rfl)⟩

/-- C6: each statement command has the value of the index kind of the same name,
except that `CMD_STMT_TERM` has the value of `CMD_STMT_DEF` (and not of
`INDEX_KIND_TERM`), and no statement command has the value of `INDEX_KIND_VAR`. -/
theorem stmt_cmds_are_index_kinds :
    CMD_STMT_AXIOM = INDEX_KIND_AXIOM
    ∧ CMD_STMT_SORT = INDEX_KIND_SORT
    ∧ CMD_STMT_DEF = INDEX_KIND_DEF
    ∧ CMD_STMT_THM = INDEX_KIND_THM
    ∧ CMD_STMT_LOCAL_DEF = INDEX_KIND_LOCAL_DEF
    ∧ CMD_STMT_LOCAL_THM = INDEX_KIND_LOCAL_THM
    ∧ CMD_STMT_TERM = CMD_STMT_DEF
    ∧ CMD_STMT_TERM ≠ INDEX_KIND_TERM
    ∧ INDEX_KIND_VAR ∉ stmtOpcodes := by
  decide

/-! ## The magic number -/

/-- C7: the four bytes of `MM0B_MAGIC` in little-endian order are the ASCII codes
of `M`, `M`, `0`, `B`, that is the text "MM0B"; the constant is `0x42304D4D`
and is what reading those four bytes back gives. -/
theorem magic_is_MM0B :
    MM0B_MAGIC = 0x42304D4D
    ∧ u32_le_bytes MM0B_MAGIC = ['M', 'M', '0', 'B'].map Char.toNat
    ∧ (u32_le_bytes MM0B_MAGIC).map Char.ofNat = "MM0B".toList
    ∧ u32_of_le_bytes (['M', 'M', '0', 'B'].map Char.toNat) = some MM0B_MAGIC := by
  decide

/-! ## Padding -/

/-- C8: when `p + CMD_MAX_SIZE ≤ len`, a generic command that starts at `p` with
opcode byte `op` (one byte plus the 0, 1, 2 or 4 immediate bytes chosen by
`CMD_DATA op`) ends at or before `len`, and so does the fixed part of a
statement command (the `cmd` byte and the 4-byte `next`) that starts at `p`;
the same holds for the structures as declared, padding included: the
structure of the generic command and the 8 bytes of `cmd_stmt` read at `p`
end at or before `len`. -/
theorem padding_makes_reads_safe (len p op : Nat) (hp : p + CMD_MAX_SIZE ≤ len)
    (hop : op < 256) :
    (∃ w, immWidth op = some w ∧ encodedLength op = some (1 + w) ∧ p + (1 + w) ≤ len)
    ∧ (∃ n, cmdLength op = some n ∧ p + n ≤ len)
    ∧ cmd_stmt.fieldSize "cmd" = some 1
    ∧ cmd_stmt.fieldSize "next" = some 4
    ∧ p + (1 + 4) ≤ len
    ∧ cmd_stmt.sizeof = 8
    ∧ p + cmd_stmt.sizeof ≤ len := by
  have hm : CMD_MAX_SIZE = 12 := rfl
  have hs : cmd_stmt.sizeof = 8 := by decide
  obtain ⟨w, n, hw, he, hl, hw5, hn8⟩ := cmd_lengths_bounded op hop
  refine ⟨⟨w, hw, he, ?_⟩, ⟨n, hl, ?_⟩, by decide, by decide, ?_, hs, ?_⟩ <;> omega

/-- C8 for a 12-byte file with a 32-bit command at offset 0. -/
theorem padding_makes_reads_safe_witness :
    0 + CMD_MAX_SIZE ≤ 12 ∧ 0xD0 < 256
    ∧ (∃ w, immWidth 0xD0 = some w ∧ encodedLength 0xD0 = some (1 + w) ∧ 0 + (1 + w) ≤ 12)
    ∧ (∃ n, cmdLength 0xD0 = some n ∧ 0 + n ≤ 12)
    ∧ 0 + cmd_stmt.sizeof ≤ 12 :=
  have h := padding_makes_reads_safe 12 0 0xD0 (by decide) (by decide)
  ⟨by decide, by decide, h.1, h.2.1, h.2.2.2.2.2.2⟩

/-- C9, as stated, fails: the longest command structure is not 12 bytes long.
With the fields laid out one after the other as the format table gives them
the sizes are 5, 1, 2, 3, 5; as declared, with `next` and the 32-bit `data`
at offset 4 and the 16-bit `data` at offset 2, they are 8, 1, 2, 4, 8. -/
theorem cmd_max_size_not_longest :
    cmdStructs.map CStruct.packedSize = [5, 1, 2, 3, 5]
    ∧ longestPackedCmd = 5
    ∧ cmd_stmt.offsetOf "next" = some 4
    ∧ cmd16.offsetOf "data" = some 2
    ∧ cmd32.offsetOf "data" = some 4
    ∧ cmdStructs.map CStruct.sizeof = [8, 1, 2, 4, 8]
    ∧ longestCmdStruct = 8
    ∧ CMD_MAX_SIZE = 12
    ∧ longestPackedCmd ≠ CMD_MAX_SIZE
    ∧ longestCmdStruct ≠ CMD_MAX_SIZE := by
  decide

/-- C9, amended: `CMD_MAX_SIZE = 12` is an upper bound on the size of every
command structure: the longest is 5 bytes with the fields laid out one after
the other, 8 bytes as declared, and each structure is at most 12 bytes in
both layouts. -/
theorem cmd_max_size_bounds_structs :
    CMD_MAX_SIZE = 12
    ∧ longestPackedCmd = 5
    ∧ longestCmdStruct = 8
    ∧ longestPackedCmd ≤ CMD_MAX_SIZE
    ∧ longestCmdStruct ≤ CMD_MAX_SIZE
    ∧ (∀ s ∈ cmdStructs, s.packedSize ≤ CMD_MAX_SIZE ∧ s.sizeof ≤ CMD_MAX_SIZE) := by
  decide

/-- C10, as stated, fails: in a 12-byte file an End command at offset 0 satisfies
the rule although only 11 bytes follow it. -/
theorem end_padding_19_not_needed :
    cmdLength CMD_END = some 1
    ∧ bytesAfter 12 0 = 11
    ∧ ¬ (paddingOk 12 0 = true ↔ 12 ≥ 0 + 1 + 19) := by
  decide

/-- C10, amended: a one-byte End command at offset `p` satisfies the rule that no
command begins within `CMD_MAX_SIZE = 12` bytes of the end of the file exactly
when at least 11 bytes follow it; a file with 19 or more bytes after it
always does. -/
theorem end_padding_exact (len p k : Nat) :
    cmdLength CMD_END = some 1
    ∧ CMD_MAX_SIZE = 12
    ∧ (paddingOk len p = true ↔ len ≥ p + 1 + 11)
    ∧ (paddingOk len p = true ↔ p < len ∧ bytesAfter len p ≥ 11)
    ∧ paddingOk (p + 1 + 19 + k) p = true := by
  refine ⟨by decide, rfl, ?_, ?_, ?_⟩
  · unfold paddingOk CMD_MAX_SIZE
    exact decide_eq_true_iff.trans ⟨fun h => by omega, fun h => by omega⟩
  · unfold paddingOk CMD_MAX_SIZE bytesAfter
    rw [decide_eq_true_eq]
    omega
  · unfold paddingOk CMD_MAX_SIZE
    rw [decide_eq_true_eq]
    omega

/-! ## Sort ids and the sort table -/

theorem TYPE_SORT_shl64 (s : Nat) (hs : s < 128) :
    shl64 s 56 < 2 ^ 64 ∧ TYPE_SORT (shl64 s 56) = s := by
  rw [TYPE_SORT_eq_div_mod, shl64, Nat.shiftLeft_eq]
  omega

/-- C11: the sort id of every binder word, whatever its 64 bits, is below
`MAX_SORTS = 128`, so it indexes an array of `MAX_SORTS` sort bytes in range;
and every sort id below `MAX_SORTS` is the sort id of a 64-bit word (the id
shifted to bits 56 to 62), `MAX_SORTS` being `2^7`. -/
theorem type_sort_in_range (w s : Nat) (sorts : List Nat)
    (hlen : sorts.length = MAX_SORTS) (hs : s < MAX_SORTS) :
    TYPE_SORT w < MAX_SORTS
    ∧ (∃ flags, sorts[TYPE_SORT w]? = some flags)
    ∧ shl64 s 56 < 2 ^ 64
    ∧ TYPE_SORT (shl64 s 56) = s
    ∧ MAX_SORTS = 2 ^ 7 := by
  have hlt : TYPE_SORT w < sorts.length := by
    rw [hlen]
    exact TYPE_SORT_lt w
  have hback := TYPE_SORT_shl64 s hs
  exact ⟨TYPE_SORT_lt w, ⟨sorts[TYPE_SORT w], List.getElem?_eq_getElem hlt⟩, hback.1,
    hback.2, rfl⟩

/-- C11 at the word `0xFF00000000000001`, the sort id 127 and a table of 128
zero bytes. -/
theorem type_sort_in_range_witness :
    (List.replicate 128 0).length = MAX_SORTS
    ∧ 127 < MAX_SORTS
    ∧ TYPE_SORT 0xFF00000000000001 < MAX_SORTS
    ∧ TYPE_SORT (shl64 127 56) = 127 :=
  have h := type_sort_in_range 0xFF00000000000001 127 (List.replicate 128 0) (by decide)
    (by decide)
  ⟨by decide, by decide, h.1, h.2.2.2.1⟩

/-! ## Opcode constants -/

theorem cmd_data_below_0x40 : ∀ op, op < 0x40 → CMD_DATA op = CMD_DATA_0 := by
  decide

theorem not_stmt_of_ge_16 (op : Nat) (h : 16 ≤ op) : op ∉ stmtOpcodes := by
  intro hmem
  have hle : ∀ a ∈ stmtOpcodes, a ≤ 15 := by decide
  have := hle op hmem
  omega

/-- C12, as stated, fails: `CMD_UNIFY_TERM = 0x30` has bit 5 set, so not every
opcode constant has bit 5 clear. -/
theorem unify_term_uses_bit5 :
    CMD_UNIFY_TERM = 0x30
    ∧ CMD_UNIFY_TERM &&& 0x20 = 0x20
    ∧ CMD_UNIFY_TERM.testBit 5 = true
    ∧ ¬ (∀ op ∈ stmtOpcodes ++ proofOpcodes ++ unifyOpcodes, op &&& 0x20 = 0) := by
  decide

/-- C12, amended: every statement opcode constant and every proof opcode constant
has bit 5 (value 0x20) clear, and every unify opcode constant has it set. -/
theorem bit5_clear_in_stmt_and_proof :
    (∀ op ∈ stmtOpcodes, op &&& 0x20 = 0 ∧ op.testBit 5 = false)
    ∧ (∀ op ∈ proofOpcodes, op &&& 0x20 = 0 ∧ op.testBit 5 = false)
    ∧ (∀ op ∈ unifyOpcodes, op &&& 0x20 = 0x20 ∧ op.testBit 5 = true) := by
  decide

/-- C13: every statement opcode constant is at most 15, every proof and unify
opcode constant is at least 16 and below 0x40; and an opcode in that range is
no statement opcode and has the width selector `CMD_DATA_0`. -/
theorem keywords_below_16 :
    (∀ op ∈ stmtOpcodes, op ≤ 15)
    ∧ (∀ op ∈ proofOpcodes, 16 ≤ op ∧ op < 0x40)
    ∧ (∀ op ∈ unifyOpcodes, 16 ≤ op ∧ op < 0x40)
    ∧ (∀ op ∈ proofOpcodes ++ unifyOpcodes, op ∉ stmtOpcodes ∧ CMD_DATA op = CMD_DATA_0)
    ∧ (∀ op, 16 ≤ op → op < 0x40 → op ∉ stmtOpcodes ∧ CMD_DATA op = CMD_DATA_0) :=
  ⟨by decide, by decide, by decide, by decide,
    fun op h16 h40 => ⟨not_stmt_of_ge_16 op h16, cmd_data_below_0x40 op h40⟩⟩

/-- C14: the four sort modifier flags are the distinct single bits 1, 2, 4, 8 with
union 0x0F; for each of the 16 subsets of the modifiers the OR of its flags
is a byte below 16 with the high four bits clear, the test `(byte & FLAG) != 0`
holds exactly for the members of the subset, and distinct subsets give
distinct bytes. -/
theorem sort_flags_independent :
    sortFlags = [2 ^ 0, 2 ^ 1, 2 ^ 2, 2 ^ 3]
    ∧ sortFlags.Nodup
    ∧ SORT_PURE ||| SORT_STRICT ||| SORT_PROVABLE ||| SORT_FREE = 0x0F
    ∧ sortByte sortFlags = 0x0F
    ∧ sortFlags.sublists.length = 16
    ∧ (∀ mods ∈ sortFlags.sublists,
        sortByte mods < 16 ∧ sortByte mods &&& 0xF0 = 0
        ∧ ∀ f ∈ sortFlags, (hasSortFlag (sortByte mods) f = true ↔ f ∈ mods))
    ∧ (sortFlags.sublists.map sortByte).Nodup := by
  decide

/-- C15: the fourteen proof opcode constants are pairwise distinct, the six unify
opcode constants are pairwise distinct, the statement opcode constants are
pairwise distinct once `CMD_STMT_TERM`, which equals `CMD_STMT_DEF`, is left
out, and the statement, proof and unify constants are pairwise disjoint. -/
theorem opcodes_unique_in_context :
    proofOpcodes.length = 14 ∧ proofOpcodes.Nodup
    ∧ unifyOpcodes.length = 6 ∧ unifyOpcodes.Nodup
    ∧ stmtOpcodes[1]? = some CMD_STMT_TERM
    ∧ stmtOpcodes.eraseIdx 1 = stmtOpcodesNoTerm
    ∧ stmtOpcodesNoTerm.Nodup
    ∧ CMD_STMT_TERM = CMD_STMT_DEF
    ∧ (∀ a ∈ stmtOpcodes, a ∉ proofOpcodes ∧ a ∉ unifyOpcodes)
    ∧ (∀ a ∈ proofOpcodes, a ∉ unifyOpcodes) := by
  decide

/-- C16: each unify opcode is the proof opcode of the same name with bit 5 set,
clearing bit 5 of a unify opcode gives that proof opcode back, and each Save
variant is its base opcode with bit 0 set. -/
theorem unify_is_proof_with_bit5 :
    CMD_UNIFY_TERM = CMD_PROOF_TERM ||| 0x20
    ∧ CMD_UNIFY_TERM_SAVE = CMD_PROOF_TERM_SAVE ||| 0x20
    ∧ CMD_UNIFY_REF = CMD_PROOF_REF ||| 0x20
    ∧ CMD_UNIFY_DUMMY = CMD_PROOF_DUMMY ||| 0x20
    ∧ CMD_UNIFY_THM = CMD_PROOF_THM ||| 0x20
    ∧ CMD_UNIFY_HYP = CMD_PROOF_HYP ||| 0x20
    ∧ CMD_UNIFY_TERM &&& 0xDF = CMD_PROOF_TERM
    ∧ CMD_UNIFY_TERM_SAVE &&& 0xDF = CMD_PROOF_TERM_SAVE
    ∧ CMD_UNIFY_REF &&& 0xDF = CMD_PROOF_REF
    ∧ CMD_UNIFY_DUMMY &&& 0xDF = CMD_PROOF_DUMMY
    ∧ CMD_UNIFY_THM &&& 0xDF = CMD_PROOF_THM
    ∧ CMD_UNIFY_HYP &&& 0xDF = CMD_PROOF_HYP
    ∧ unifyOpcodes.map (fun op => op &&& 0xDF) =
        [CMD_PROOF_TERM, CMD_PROOF_TERM_SAVE, CMD_PROOF_REF, CMD_PROOF_DUMMY, CMD_PROOF_THM,
         CMD_PROOF_HYP]
    ∧ CMD_PROOF_TERM_SAVE = CMD_PROOF_TERM ||| 1
    ∧ CMD_UNIFY_TERM_SAVE = CMD_UNIFY_TERM ||| 1
    ∧ CMD_PROOF_THM_SAVE = CMD_PROOF_THM ||| 1 := by
  decide

end MM0B
